import Mathlib

/-!
Shallow embedding of `src/main.py` (a PostgreSQL MCP server over a DVD-rental
schema) and proofs about its operations.

Modelling conventions:
* Python strings are Lean `String`s; the character-level operations
  (`strip`, `lower`, `rstrip`, `startswith`) are modelled on `String.data`.
* SQL timestamps are abstract `Nat` values; `NOW()` is passed in as an
  explicit `now` argument.
* The database tables touched by the domain operations are Lean lists of
  record rows; a SQL statement becomes the corresponding list transformation.
* Raised Python exceptions are `Except.error`; strings returned normally are
  plain `String` results.
* Connection/cursor lifecycle is modelled as a trace of `DbEvent`s following
  the documented psycopg2 context-manager semantics: leaving a
  `with connection` block commits (on success) or rolls back (on exception)
  the transaction but does NOT close the connection; leaving a `with cursor`
  block closes the cursor.
-/

namespace PgMcp

/-- Characters removed by Python `str.strip()` with no argument
(ASCII whitespace: space, tab, newline, carriage return, vertical tab,
form feed). -/
def isPyWs (c : Char) : Bool :=
  c == ' ' || c == '\t' || c == '\n' || c == '\r' || c == '\x0b' || c == '\x0c'

/-- Python `str.strip()` on a character list: drop leading and trailing
whitespace. -/
def pyStripChars (l : List Char) : List Char :=
  ((l.dropWhile isPyWs).reverse.dropWhile isPyWs).reverse

/-- Python `str.lower()` on a character list (ASCII model). -/
def pyLowerChars (l : List Char) : List Char := l.map Char.toLower

/-- The Read-Only Guard test of `run_select_query` (src/main.py line 68):
`query.strip().lower().startswith("select")`. -/
def startsWithSelect (query : String) : Bool :=
  List.isPrefixOf "select".data (pyLowerChars (pyStripChars query.data))

/-- Python `str.rstrip(chars)`: remove trailing characters satisfying `p`. -/
def pyRstrip (p : Char → Bool) (s : String) : String :=
  ⟨(s.data.reverse.dropWhile p).reverse⟩

/-- `query.rstrip(';')` from src/main.py line 71: strips trailing semicolon
characters only (not whitespace). -/
def rstripSemi (s : String) : String := pyRstrip (fun c => c == ';') s

/-- The statement text built on src/main.py line 71:
`f"{query.rstrip(';')} LIMIT {limit}"`. -/
def limited_query (query : String) (limit : Nat) : String :=
  rstripSemi query ++ " LIMIT " ++ toString limit

/-- Modelled from the spec's words (for comparison with `limited_query`,
which is the code's behaviour): the executed statement is the input with any
trailing statement separator stripped — regardless of trailing semicolons and
any trailing whitespace — followed by the row-cap clause. -/
def specLimitedQuery (query : String) (limit : Nat) : String :=
  pyRstrip (fun c => c == ';' || isPyWs c) query ++ " LIMIT " ++ toString limit

/-- Observable actions on the database connection.  The traces produced below
follow psycopg2's documented context-manager semantics: exiting a
`with connection` block ends the transaction (`commit` on success,
`rollback` on exception) but does not close the connection, and exiting a
`with cursor` block closes the cursor.  `connClose` would be emitted by an
explicit `connection.close()`, which src/main.py never calls. -/
inductive DbEvent where
  | connOpen : DbEvent
  | execute : String → List String → DbEvent
  | commit : DbEvent
  | rollback : DbEvent
  | cursorClose : DbEvent
  | connClose : DbEvent
  deriving DecidableEq, Repr

/-- The SQL text of `list_tables` (src/main.py lines 33-41), whitespace
normalised to one line. -/
def listTablesSQL : String :=
  "SELECT table_name FROM information_schema.tables WHERE table_schema = %s ORDER BY table_name"

/-- Connection trace of `list_tables(schema)` (src/main.py lines 29-42) on
its success path: open a connection, execute the statement with the bound
parameter, close the cursor, and end the transaction on leaving the
`with` blocks.  No `connClose` is emitted. -/
def list_tables_events (schema : String) : List DbEvent :=
  [DbEvent.connOpen, DbEvent.execute listTablesSQL [schema],
   DbEvent.cursorClose, DbEvent.commit]

/-- `run_select_query(query, limit)` (src/main.py lines 63-76), modelled as
the pair of its connection trace and its outcome (`Except.error` models the
raised `ValueError`; the fetched rows of an arbitrary ad-hoc statement are
outside the relational model, so the success payload is `Unit`).  The guard
runs before any connection is opened, so a rejected query produces an empty
trace. -/
def run_select_query (query : String) (limit : Nat) :
    List DbEvent × Except String Unit :=
  if !(startsWithSelect query) then
    ([], Except.error "Only SELECT queries are allowed")
  else
    ([DbEvent.connOpen, DbEvent.execute (limited_query query limit) [],
      DbEvent.cursorClose, DbEvent.commit], Except.ok ())

theorem head?_dropWhile_false {p : Char → Bool} :
    ∀ (l : List Char) (c : Char), (l.dropWhile p).head? = some c → p c = false := by
  intro l
  induction l with
  | nil => intro c h; simp [List.dropWhile] at h
  | cons a l ih =>
    intro c h
    rw [List.dropWhile_cons] at h
    by_cases hp : p a = true
    · rw [if_pos hp] at h
      exact ih c h
    · rw [if_neg hp] at h
      simp only [List.head?_cons, Option.some.injEq] at h
      rw [← h]
      exact Bool.eq_false_iff.mpr hp

theorem rstripSemi_getLast?_ne_semi (s : String) :
    (rstripSemi s).data.getLast? ≠ some ';' := by
  intro h
  have h2 : ((s.data.reverse.dropWhile (fun c => c == ';')).reverse).getLast? = some ';' := h
  rw [List.getLast?_reverse] at h2
  have := head?_dropWhile_false (p := fun c => c == ';') s.data.reverse ';' h2
  simp at this

/-- C1: for every query text whose form after trimming leading/trailing
whitespace does not start, case-insensitively, with "select",
`run_select_query` raises a `ValueError` (an InputRejected-class failure)
and performs no database access: its connection trace is empty, so the
statement is never executed. -/
theorem run_select_query_rejects_non_select (query : String) (limit : Nat)
    (h : startsWithSelect query = false) :
    run_select_query query limit =
      ([], Except.error "Only SELECT queries are allowed") := by
  simp [run_select_query, h]

/-- Witness for C1 at the concrete rejected query `"DROP TABLE film"`. -/
theorem run_select_query_rejects_non_select_witness :
    run_select_query "DROP TABLE film" 50 =
      ([], Except.error "Only SELECT queries are allowed") :=
  run_select_query_rejects_non_select "DROP TABLE film" 50 (by decide)

/-- C2 counterexample: the accepted query `"select 1; "` (trailing semicolon
followed by a space) keeps its semicolon, because `rstrip(';')` strips only
trailing `';'` characters; the executed statement therefore differs from the
spec-described statement in which the trailing separator is stripped
regardless of trailing whitespace. -/
theorem limited_query_trailing_ws_counterexample :
    startsWithSelect "select 1; " = true ∧
    limited_query "select 1; " 50 = "select 1;  LIMIT 50" ∧
    specLimitedQuery "select 1; " 50 = "select 1 LIMIT 50" ∧
    limited_query "select 1; " 50 ≠ specLimitedQuery "select 1; " 50 :=
  ⟨by decide, by decide, by decide, by decide⟩

/-- C2 (amended): for every accepted query and requested limit, the statement
`run_select_query` executes is the input with trailing `';'` characters
removed followed by exactly one appended `LIMIT n` clause, and the stripped
part never ends in a semicolon; semicolons followed by trailing whitespace
are, however, not removed (only literal trailing `';'` characters are). -/
theorem run_select_query_executed_statement (query : String) (limit : Nat)
    (h : startsWithSelect query = true) :
    (run_select_query query limit).1 =
      [DbEvent.connOpen,
       DbEvent.execute (rstripSemi query ++ " LIMIT " ++ toString limit) [],
       DbEvent.cursorClose, DbEvent.commit] ∧
    (rstripSemi query).data.getLast? ≠ some ';' := by
  constructor
  · simp [run_select_query, h, limited_query]
  · exact rstripSemi_getLast?_ne_semi query

/-- Witness for the amended C2 at the concrete query `"select 1;;"`. -/
theorem run_select_query_executed_statement_witness :
    (run_select_query "select 1;;" 7).1 =
      [DbEvent.connOpen,
       DbEvent.execute (rstripSemi "select 1;;" ++ " LIMIT " ++ toString 7) [],
       DbEvent.cursorClose, DbEvent.commit] ∧
    (rstripSemi "select 1;;").data.getLast? ≠ some ';' :=
  run_select_query_executed_statement "select 1;;" 7 (by decide)

/-- C8 counterexample: `list_tables` (success path, at schema `"public"`)
opens a connection but never closes it — under psycopg2 semantics the
`with connection` block ends the transaction without closing the connection,
and the code never calls `connection.close()`. -/
theorem list_tables_leaves_connection_open :
    DbEvent.connOpen ∈ list_tables_events "public" ∧
    DbEvent.connClose ∉ list_tables_events "public" := by
  decide


/-- A row of the `film` table (the columns used by src/main.py):
`description` is nullable in the DVD-rental schema, hence `Option`.
`rental_rate` is an abstract numeric value. -/
structure FilmRow where
  film_id : Nat
  title : String
  description : Option String
  release_year : Int
  rental_rate : Int
  rating : String
  deriving DecidableEq, Repr

/-- A row of the `category` table. -/
structure CategoryRow where
  category_id : Nat
  name : String
  deriving DecidableEq, Repr

/-- A row of the `film_category` join table. -/
structure FilmCategoryRow where
  film_id : Nat
  category_id : Nat
  deriving DecidableEq, Repr

/-- A row of the `inventory` table. -/
structure InventoryRow where
  inventory_id : Nat
  film_id : Nat
  store_id : Nat
  deriving DecidableEq, Repr

/-- A row of the `rental` table.  `return_date = none` models SQL NULL,
i.e. an open rental. -/
structure RentalRow where
  rental_id : Nat
  rental_date : Nat
  inventory_id : Nat
  customer_id : Nat
  staff_id : Nat
  return_date : Option Nat
  deriving DecidableEq, Repr

/-- The database state visible to the domain operations.  `nextRentalId`
models the serial sequence backing `rental.rental_id`, consumed by the
`INSERT ... RETURNING rental_id` of `rent_movie`. -/
structure DB where
  film : List FilmRow
  category : List CategoryRow
  film_category : List FilmCategoryRow
  inventory : List InventoryRow
  rental : List RentalRow
  nextRentalId : Nat
  deriving DecidableEq, Repr

/-- The availability check of `rent_movie` (src/main.py lines 163-171):
`SELECT rental_id FROM rental WHERE inventory_id = %s AND return_date IS
NULL` followed by `fetchone()` truthiness.  `find?` models `fetchone` on
the result set. -/
def openRentalExists (db : DB) (inventory_id : Nat) : Bool :=
  (db.rental.find? (fun r =>
    r.inventory_id == inventory_id && r.return_date.isNone)).isSome

/-- `rent_movie(customer_id, inventory_id, staff_id)` (src/main.py lines
155-185).  `now` is the value of SQL `NOW()`.  If an open rental exists the
conflict is reported as an ordinary returned string and nothing is inserted;
otherwise `INSERT INTO rental (rental_date, inventory_id, customer_id,
staff_id) VALUES (NOW(), %s, %s, %s) RETURNING rental_id` appends one row
whose `return_date` defaults to NULL, the transaction is committed, and the
success string carries the generated id.  The return type is a plain
`String × DB` (no error channel): business conflicts are not raised. -/
def rent_movie (db : DB) (now customer_id inventory_id staff_id : Nat) :
    String × DB :=
  if openRentalExists db inventory_id then
    ("Error: Inventory item " ++ toString inventory_id ++
      " is already rented out.", db)
  else
    ("Successfully rented. Rental ID: " ++ toString db.nextRentalId,
     { db with
        rental := db.rental ++
          [{ rental_id := db.nextRentalId, rental_date := now,
             inventory_id := inventory_id, customer_id := customer_id,
             staff_id := staff_id, return_date := none }],
        nextRentalId := db.nextRentalId + 1 })

/-- `return_movie(rental_id)` (src/main.py lines 189-215).  The lookup
`SELECT return_date FROM rental WHERE rental_id = %s` + `fetchone()` is
`find?`; `if not row` is the `none` case; `if row[0]` is truthiness of the
fetched `return_date` (a datetime is truthy, NULL/None is falsy); the update
`UPDATE rental SET return_date = NOW() WHERE rental_id = %s` rewrites every
row matching the id.  Conflicts are returned as plain strings, not raised. -/
def return_movie (db : DB) (now rental_id : Nat) : String × DB :=
  match db.rental.find? (fun r => r.rental_id == rental_id) with
  | none => ("Error: Rental ID " ++ toString rental_id ++ " not found.", db)
  | some row =>
    match row.return_date with
    | some d =>
        ("Error: Rental ID " ++ toString rental_id ++
          " already returned on " ++ toString d ++ ".", db)
    | none =>
        ("Successfully returned rental " ++ toString rental_id ++ ".",
         { db with
            rental := db.rental.map (fun r =>
              if r.rental_id == rental_id then
                { r with return_date := some now }
              else r) })

/-- `get_available_inventory(film_id)` (src/main.py lines 219-236):
`SELECT inventory_id, store_id FROM inventory WHERE film_id = %s AND
inventory_id NOT IN (SELECT inventory_id FROM rental WHERE return_date IS
NULL)`, returned as `(inventory_id, store_id)` pairs. -/
def get_available_inventory (db : DB) (film_id : Nat) : List (Nat × Nat) :=
  (db.inventory.filter (fun i =>
      i.film_id == film_id &&
      !(db.rental.any (fun r =>
          r.return_date.isNone && r.inventory_id == i.inventory_id)))).map
    (fun i => (i.inventory_id, i.store_id))

/-- `pat` occurs in `s` as a contiguous substring. -/
def containsSub (s pat : String) : Prop := ∃ a b, s = a ++ pat ++ b

/-- An empty database state, used for concrete witnesses. -/
def dbEmpty : DB :=
  { film := [], category := [], film_category := [], inventory := [],
    rental := [], nextRentalId := 1 }

/-- A concrete open rental of inventory item 5. -/
def rentalOpen5 : RentalRow :=
  { rental_id := 3, rental_date := 10, inventory_id := 5, customer_id := 1,
    staff_id := 1, return_date := none }

/-- A database in which inventory item 5 is currently rented out. -/
def dbOpen5 : DB := { dbEmpty with rental := [rentalOpen5], nextRentalId := 4 }

/-- C3: if an open rental exists for `inventory_id`, `rent_movie` returns an
ordinary string containing "already rented out" and leaves the database (in
particular the rental table) unchanged; otherwise it appends exactly one new
rental row for that inventory with `return_date` NULL and `rental_date`
equal to the current timestamp, and returns a success string carrying the
generated rental id.  The conflict is a returned `String`, not a raised
failure (the result type has no error channel). -/
theorem rent_movie_correct (db : DB) (now cid inv sid : Nat) :
    (openRentalExists db inv = true →
      rent_movie db now cid inv sid =
        ("Error: Inventory item " ++ toString inv ++
          " is already rented out.", db) ∧
      containsSub
        ("Error: Inventory item " ++ toString inv ++ " is already rented out.")
        "already rented out") ∧
    (openRentalExists db inv = false →
      rent_movie db now cid inv sid =
        ("Successfully rented. Rental ID: " ++ toString db.nextRentalId,
         { db with
            rental := db.rental ++
              [{ rental_id := db.nextRentalId, rental_date := now,
                 inventory_id := inv, customer_id := cid, staff_id := sid,
                 return_date := none }],
            nextRentalId := db.nextRentalId + 1 }) ∧
      containsSub
        ("Successfully rented. Rental ID: " ++ toString db.nextRentalId)
        (toString db.nextRentalId)) := by
  constructor
  · intro h
    constructor
    · unfold rent_movie
      rw [if_pos h]
    · refine ⟨"Error: Inventory item " ++ toString inv ++ " is ", ".", ?_⟩
      rw [show (" is already rented out." : String) =
        " is " ++ "already rented out" ++ "." from rfl]
      simp only [String.append_assoc]
  · intro h
    constructor
    · unfold rent_movie
      rw [if_neg (by simp [h])]
    · refine ⟨"Successfully rented. Rental ID: ", "", ?_⟩
      rw [String.append_empty]

/-- Witness for C3: both branches at concrete databases — inventory 5 rented
out in `dbOpen5`, and free in `dbEmpty`. -/
theorem rent_movie_correct_witness :
    (rent_movie dbOpen5 20 1 5 1 =
      ("Error: Inventory item " ++ toString 5 ++ " is already rented out.",
       dbOpen5) ∧
     containsSub
       ("Error: Inventory item " ++ toString 5 ++ " is already rented out.")
       "already rented out") ∧
    (rent_movie dbEmpty 20 1 5 1 =
      ("Successfully rented. Rental ID: " ++ toString dbEmpty.nextRentalId,
       { dbEmpty with
          rental := dbEmpty.rental ++
            [{ rental_id := dbEmpty.nextRentalId, rental_date := 20,
               inventory_id := 5, customer_id := 1, staff_id := 1,
               return_date := none }],
          nextRentalId := dbEmpty.nextRentalId + 1 }) ∧
     containsSub
       ("Successfully rented. Rental ID: " ++ toString dbEmpty.nextRentalId)
       (toString dbEmpty.nextRentalId)) :=
  ⟨(rent_movie_correct dbOpen5 20 1 5 1).1 (by decide),
   (rent_movie_correct dbEmpty 20 1 5 1).2 (by decide)⟩

/-- C4: `return_movie` returns the "not found" rejection string when no row
has the requested `rental_id`; returns a string containing "already returned"
and leaves the database unchanged when the fetched row's `return_date` is
set; and otherwise sets `return_date` to the current timestamp on the
matching row(s) and reports success.  All three outcomes are returned
strings, not raised failures. -/
theorem return_movie_correct (db : DB) (now rid : Nat) :
    (db.rental.find? (fun r => r.rental_id == rid) = none →
      return_movie db now rid =
        ("Error: Rental ID " ++ toString rid ++ " not found.", db)) ∧
    (∀ (row : RentalRow),
      db.rental.find? (fun r => r.rental_id == rid) = some row →
      ∀ (d : Nat), row.return_date = some d →
        return_movie db now rid =
          ("Error: Rental ID " ++ toString rid ++ " already returned on " ++
            toString d ++ ".", db) ∧
        containsSub
          ("Error: Rental ID " ++ toString rid ++ " already returned on " ++
            toString d ++ ".")
          "already returned") ∧
    (∀ (row : RentalRow),
      db.rental.find? (fun r => r.rental_id == rid) = some row →
      row.return_date = none →
        return_movie db now rid =
          ("Successfully returned rental " ++ toString rid ++ ".",
           { db with
              rental := db.rental.map (fun r =>
                if r.rental_id == rid then { r with return_date := some now }
                else r) })) := by
  refine ⟨fun h => ?_, fun row hrow d hd => ?_, fun row hrow hd => ?_⟩
  · simp only [return_movie, h]
  · constructor
    · simp only [return_movie, hrow, hd]
    · refine ⟨"Error: Rental ID " ++ toString rid ++ " ",
        " on " ++ toString d ++ ".", ?_⟩
      rw [show (" already returned on " : String) =
        " " ++ "already returned" ++ " on " from rfl]
      simp only [String.append_assoc]
  · simp only [return_movie, hrow, hd]

/-- A concrete rental already returned (id 7, returned at time 15). -/
def rentalReturned7 : RentalRow :=
  { rental_id := 7, rental_date := 10, inventory_id := 2, customer_id := 1,
    staff_id := 1, return_date := some 15 }

/-- A concrete open rental with id 8. -/
def rentalOpen8 : RentalRow :=
  { rental_id := 8, rental_date := 11, inventory_id := 3, customer_id := 2,
    staff_id := 1, return_date := none }

/-- A database containing one returned rental (id 7) and one open rental
(id 8). -/
def dbRentals78 : DB :=
  { dbEmpty with rental := [rentalReturned7, rentalOpen8], nextRentalId := 9 }

/-- Witness for C4: all three branches at concrete inputs — id 1 absent,
id 7 already returned, id 8 open. -/
theorem return_movie_correct_witness :
    (return_movie dbRentals78 20 1 =
      ("Error: Rental ID " ++ toString 1 ++ " not found.", dbRentals78)) ∧
    (return_movie dbRentals78 20 7 =
      ("Error: Rental ID " ++ toString 7 ++ " already returned on " ++
        toString 15 ++ ".", dbRentals78) ∧
     containsSub
       ("Error: Rental ID " ++ toString 7 ++ " already returned on " ++
         toString 15 ++ ".")
       "already returned") ∧
    (return_movie dbRentals78 20 8 =
      ("Successfully returned rental " ++ toString 8 ++ ".",
       { dbRentals78 with
          rental := dbRentals78.rental.map (fun r =>
            if r.rental_id == 8 then { r with return_date := some 20 }
            else r) })) :=
  ⟨(return_movie_correct dbRentals78 20 1).1 (by decide),
   (return_movie_correct dbRentals78 20 7).2.1 rentalReturned7 (by decide)
     15 (by decide),
   (return_movie_correct dbRentals78 20 8).2.2 rentalOpen8 (by decide)
     (by decide)⟩

/-- C10: on the success path of `return_movie` (the looked-up rental exists
and its `return_date` is NULL) the rental table keeps its length and, at
every position, a row whose `rental_id` differs from the requested one is
unchanged, while a row with the requested `rental_id` changes only its
`return_date` field (set to the current timestamp); the other tables are
untouched as well. -/
theorem return_movie_frame (db : DB) (now rid : Nat) (row : RentalRow)
    (hfind : db.rental.find? (fun r => r.rental_id == rid) = some row)
    (hopen : row.return_date = none) :
    ((return_movie db now rid).2.rental.length = db.rental.length) ∧
    (∀ (i : Nat) (old : RentalRow), db.rental[i]? = some old →
      (old.rental_id ≠ rid →
        (return_movie db now rid).2.rental[i]? = some old) ∧
      (old.rental_id = rid →
        (return_movie db now rid).2.rental[i]? =
          some { old with return_date := some now })) ∧
    (return_movie db now rid).2.film = db.film ∧
    (return_movie db now rid).2.category = db.category ∧
    (return_movie db now rid).2.film_category = db.film_category ∧
    (return_movie db now rid).2.inventory = db.inventory := by
  have hret : (return_movie db now rid).2 =
      { db with rental := db.rental.map (fun r =>
          if r.rental_id == rid then { r with return_date := some now }
          else r) } := by
    simp only [return_movie, hfind, hopen]
  rw [hret]
  refine ⟨List.length_map _ _, fun i old hold => ?_, rfl, rfl, rfl, rfl⟩
  constructor
  · intro hne
    simp only [List.getElem?_map, hold, Option.map_some']
    rw [if_neg (by simpa using hne)]
  · intro heq
    simp only [List.getElem?_map, hold, Option.map_some']
    rw [if_pos (by simpa using heq)]

/-- Witness for C10: in `dbRentals78`, returning rental 8 rewrites only the
`return_date` of the row at index 1 and leaves the row at index 0 intact. -/
theorem return_movie_frame_witness :
    (return_movie dbRentals78 20 8).2.rental[0]? = some rentalReturned7 ∧
    (return_movie dbRentals78 20 8).2.rental[1]? =
      some { rentalOpen8 with return_date := some 20 } :=
  ⟨((return_movie_frame dbRentals78 20 8 rentalOpen8 (by decide) rfl).2.1
      0 rentalReturned7 (by decide)).1 (by decide),
   ((return_movie_frame dbRentals78 20 8 rentalOpen8 (by decide) rfl).2.1
      1 rentalOpen8 (by decide)).2 rfl⟩

/-- C5: every pair returned by `get_available_inventory` is the
`(inventory_id, store_id)` of an inventory row of the requested film, and no
open rental (a rental row with NULL `return_date`) exists for that
`inventory_id`. -/
theorem get_available_inventory_sound (db : DB) (fid : Nat) (p : Nat × Nat)
    (hp : p ∈ get_available_inventory db fid) :
    db.inventory.any (fun i =>
      i.inventory_id == p.1 && i.store_id == p.2 && i.film_id == fid) = true ∧
    db.rental.any (fun r =>
      r.return_date.isNone && r.inventory_id == p.1) = false := by
  unfold get_available_inventory at hp
  rcases List.mem_map.mp hp with ⟨i, hi, hpi⟩
  rcases List.mem_filter.mp hi with ⟨him, hcond⟩
  rw [Bool.and_eq_true] at hcond
  obtain ⟨hfid, hno⟩ := hcond
  subst hpi
  constructor
  · exact List.any_eq_true.mpr ⟨i, him, by simp [hfid]⟩
  · simpa using hno

/-- A database where film 10 has two inventory items, one of which (item 2)
is currently rented out. -/
def dbInventory10 : DB :=
  { dbEmpty with
    inventory :=
      [{ inventory_id := 1, film_id := 10, store_id := 1 },
       { inventory_id := 2, film_id := 10, store_id := 1 }],
    rental :=
      [{ rental_id := 1, rental_date := 5, inventory_id := 2,
         customer_id := 1, staff_id := 1, return_date := none }],
    nextRentalId := 2 }

/-- Witness for C5 at `dbInventory10`: the only available pair is `(1, 1)`
and it satisfies both soundness conditions. -/
theorem get_available_inventory_sound_witness :
    dbInventory10.inventory.any (fun i =>
      i.inventory_id == 1 && i.store_id == 1 && i.film_id == 10) = true ∧
    dbInventory10.rental.any (fun r =>
      r.return_date.isNone && r.inventory_id == 1) = false :=
  get_available_inventory_sound dbInventory10 10 (1, 1) (by decide)

/-- SQL text of `describe_table` (src/main.py lines 50-56), whitespace
normalised to one line. -/
def describeTableSQL : String :=
  "SELECT column_name, data_type, is_nullable FROM information_schema.columns WHERE table_schema = %s AND table_name = %s ORDER BY ordinal_position"

/-- SQL text of `get_customer_history` (src/main.py lines 133-148). -/
def customerHistorySQL : String :=
  "SELECT r.rental_id, r.rental_date, r.return_date, f.title, p.amount FROM rental r JOIN inventory i ON r.inventory_id = i.inventory_id JOIN film f ON i.film_id = f.film_id LEFT JOIN payment p ON r.rental_id = p.rental_id WHERE r.customer_id = %s ORDER BY r.rental_date DESC LIMIT %s"

/-- SQL text of the availability check of `rent_movie` (src/main.py lines
163-170). -/
def rentCheckSQL : String :=
  "SELECT rental_id FROM rental WHERE inventory_id = %s AND return_date IS NULL"

/-- SQL text of the INSERT of `rent_movie` (src/main.py lines 175-182). -/
def rentInsertSQL : String :=
  "INSERT INTO rental (rental_date, inventory_id, customer_id, staff_id) VALUES (NOW(), %s, %s, %s) RETURNING rental_id"

/-- SQL text of the lookup of `return_movie` (src/main.py line 197). -/
def returnCheckSQL : String :=
  "SELECT return_date FROM rental WHERE rental_id = %s"

/-- SQL text of the UPDATE of `return_movie` (src/main.py lines 206-212). -/
def returnUpdateSQL : String :=
  "UPDATE rental SET return_date = NOW() WHERE rental_id = %s"

/-- SQL text of `get_available_inventory` (src/main.py lines 225-234). -/
def availableInventorySQL : String :=
  "SELECT inventory_id, store_id FROM inventory WHERE film_id = %s AND inventory_id NOT IN (SELECT inventory_id FROM rental WHERE return_date IS NULL)"

/-- SQL text of `analyze_revenue` grouped by category (src/main.py lines
247-257). -/
def revenueByCategorySQL : String :=
  "SELECT c.name as category, SUM(p.amount) as revenue FROM payment p JOIN rental r ON p.rental_id = r.rental_id JOIN inventory i ON r.inventory_id = i.inventory_id JOIN film_category fc ON i.film_id = fc.film_id JOIN category c ON fc.category_id = c.category_id GROUP BY c.name ORDER BY revenue DESC"

/-- SQL text of `analyze_revenue` grouped by store (src/main.py lines
261-268). -/
def revenueByStoreSQL : String :=
  "SELECT s.store_id, SUM(p.amount) as revenue FROM payment p JOIN staff s ON p.staff_id = s.staff_id GROUP BY s.store_id ORDER BY revenue DESC"

/-- The dynamically assembled SQL text of `search_movies` (src/main.py lines
89-117): the base SELECT/JOIN/`WHERE 1=1` text, one appended clause per
truthy filter (Python truthiness as in `searchFilter` below), and the
`ORDER BY f.title LIMIT %s` tail. -/
def searchMoviesSQL (search_term genre : Option String)
    (year : Option Int) : String :=
  "SELECT f.film_id, f.title, c.name as genre, f.release_year, f.rental_rate, f.rating, f.description FROM film f JOIN film_category fc ON f.film_id = fc.film_id JOIN category c ON fc.category_id = c.category_id WHERE 1=1" ++
  (match search_term with
   | none => ""
   | some s =>
     if s.isEmpty then ""
     else " AND (f.title ILIKE %s OR f.description ILIKE %s)") ++
  (match genre with
   | none => ""
   | some g => if g.isEmpty then "" else " AND c.name ILIKE %s") ++
  (match year with
   | none => ""
   | some y => if y == 0 then "" else " AND f.release_year = %s") ++
  " ORDER BY f.title LIMIT %s"

/-- The bound parameter list of `search_movies` (src/main.py lines 103-118),
numeric binds rendered with `toString`. -/
def searchMoviesParams (search_term genre : Option String)
    (year : Option Int) (limit : Nat) : List String :=
  (match search_term with
   | none => []
   | some s => if s.isEmpty then [] else ["%" ++ s ++ "%", "%" ++ s ++ "%"]) ++
  (match genre with
   | none => []
   | some g => if g.isEmpty then [] else ["%" ++ g ++ "%"]) ++
  (match year with
   | none => []
   | some y => if y == 0 then [] else [toString y]) ++
  [toString limit]

/-- Body events of `list_tables` inside its cursor block: one execute. -/
def list_tables_stmts (schema : String) : List DbEvent :=
  [DbEvent.execute listTablesSQL [schema]]

/-- Body events of `describe_table` (src/main.py lines 46-59). -/
def describe_table_stmts (table_name schema : String) : List DbEvent :=
  [DbEvent.execute describeTableSQL [schema, table_name]]

/-- Body events of an accepted `run_select_query` (src/main.py lines
73-76): the guarded statement of C1/C2 is executed with no bind
parameters. -/
def run_select_query_stmts (query : String) (limit : Nat) : List DbEvent :=
  [DbEvent.execute (limited_query query limit) []]

/-- Body events of `search_movies` (src/main.py lines 120-123). -/
def search_movies_stmts (search_term genre : Option String)
    (year : Option Int) (limit : Nat) : List DbEvent :=
  [DbEvent.execute (searchMoviesSQL search_term genre year)
    (searchMoviesParams search_term genre year limit)]

/-- Body events of `get_customer_history` (src/main.py lines 131-151). -/
def get_customer_history_stmts (customer_id limit : Nat) : List DbEvent :=
  [DbEvent.execute customerHistorySQL [toString customer_id, toString limit]]

/-- Body events of `rent_movie` (src/main.py lines 160-185): the
availability check always runs; when no open rental exists the INSERT and
the explicit `conn.commit()` follow. -/
def rent_movie_stmts (db : DB)
    (customer_id inventory_id staff_id : Nat) : List DbEvent :=
  if openRentalExists db inventory_id then
    [DbEvent.execute rentCheckSQL [toString inventory_id]]
  else
    [DbEvent.execute rentCheckSQL [toString inventory_id],
     DbEvent.execute rentInsertSQL
       [toString inventory_id, toString customer_id, toString staff_id],
     DbEvent.commit]

/-- Body events of `return_movie` (src/main.py lines 193-215): the lookup
always runs; on the success path the UPDATE and the explicit
`conn.commit()` follow. -/
def return_movie_stmts (db : DB) (rental_id : Nat) : List DbEvent :=
  match db.rental.find? (fun r => r.rental_id == rental_id) with
  | none => [DbEvent.execute returnCheckSQL [toString rental_id]]
  | some row =>
    match row.return_date with
    | some _ => [DbEvent.execute returnCheckSQL [toString rental_id]]
    | none =>
      [DbEvent.execute returnCheckSQL [toString rental_id],
       DbEvent.execute returnUpdateSQL [toString rental_id],
       DbEvent.commit]

/-- Body events of `get_available_inventory` (src/main.py lines 223-236). -/
def get_available_inventory_stmts (film_id : Nat) : List DbEvent :=
  [DbEvent.execute availableInventorySQL [toString film_id]]

/-- Body events of `analyze_revenue` (src/main.py lines 244-270). -/
def analyze_revenue_stmts (by_category : Bool) : List DbEvent :=
  if by_category then [DbEvent.execute revenueByCategorySQL []]
  else [DbEvent.execute revenueByStoreSQL []]

/-- Connection trace of `with get_connection() as conn: with conn.cursor()
as cur: <body>` under psycopg2's documented context-manager semantics.
`stmts` are the events the body performs in order on a clean run;
`failAt = some k` means the (k+1)-st of them raises a database error, so
the later ones do not run and the exception propagates.  On either exit the
cursor block closes the cursor, and the connection block then ends the
transaction — `commit` when no exception escaped, `rollback` when one did —
without ever closing the connection (no `connClose`): psycopg2's connection
context manager ends the transaction, not the connection, and src/main.py
never calls `connection.close()`. -/
def pgSession (stmts : List DbEvent) (failAt : Option Nat) : List DbEvent :=
  match failAt with
  | none => DbEvent.connOpen :: stmts ++ [DbEvent.cursorClose, DbEvent.commit]
  | some k =>
    DbEvent.connOpen :: stmts.take (k + 1) ++
      [DbEvent.cursorClose, DbEvent.rollback]

theorem pgSession_lifecycle (stmts : List DbEvent) (failAt : Option Nat)
    (h : DbEvent.connClose ∉ stmts) :
    (pgSession stmts failAt).head? = some DbEvent.connOpen ∧
    DbEvent.cursorClose ∈ pgSession stmts failAt ∧
    (failAt = none → DbEvent.commit ∈ pgSession stmts failAt) ∧
    (∀ k, failAt = some k → DbEvent.rollback ∈ pgSession stmts failAt) ∧
    DbEvent.connClose ∉ pgSession stmts failAt := by
  cases failAt with
  | none =>
    refine ⟨rfl, ?_, ?_, ?_, ?_⟩
    · simp [pgSession]
    · intro _
      simp [pgSession]
    · intro k hk
      exact absurd hk (by simp)
    · simp [pgSession, h]
  | some k =>
    refine ⟨rfl, ?_, ?_, ?_, ?_⟩
    · simp [pgSession]
    · intro hn
      exact absurd hn (by simp)
    · intro k2 hk
      simp [pgSession]
    · have h2 : DbEvent.connClose ∉ stmts.take (k + 1) :=
        fun hm => h (List.mem_of_mem_take hm)
      simp [pgSession, h2]

/-- C8 (amended): every catalog operation opens a fresh database connection
as its first action and runs its statements under a cursor; on every exit
path — whether all its statements succeed (`failAt = none`) or one of them
raises (`failAt = some k`) — the cursor is closed and the transaction is
ended, with a commit on success and a rollback on failure, but the
connection itself is never closed before the operation returns.  The last
two conjuncts tie these traces to the models used elsewhere: an accepted
`run_select_query` and `list_tables` produce exactly these session traces
on their success paths. -/
theorem catalog_connection_lifecycle (schema table_name query : String)
    (st ge : Option String) (yr : Option Int)
    (lim cid inv sid rid fid : Nat) (by_category : Bool) (db : DB)
    (failAt : Option Nat) :
    (∀ tr ∈ [pgSession (list_tables_stmts schema) failAt,
             pgSession (describe_table_stmts table_name schema) failAt,
             pgSession (run_select_query_stmts query lim) failAt,
             pgSession (search_movies_stmts st ge yr lim) failAt,
             pgSession (get_customer_history_stmts cid lim) failAt,
             pgSession (rent_movie_stmts db cid inv sid) failAt,
             pgSession (return_movie_stmts db rid) failAt,
             pgSession (get_available_inventory_stmts fid) failAt,
             pgSession (analyze_revenue_stmts by_category) failAt],
      tr.head? = some DbEvent.connOpen ∧
      DbEvent.cursorClose ∈ tr ∧
      (failAt = none → DbEvent.commit ∈ tr) ∧
      (∀ k, failAt = some k → DbEvent.rollback ∈ tr) ∧
      DbEvent.connClose ∉ tr) ∧
    (startsWithSelect query = true →
      (run_select_query query lim).1 =
        pgSession (run_select_query_stmts query lim) none) ∧
    list_tables_events schema = pgSession (list_tables_stmts schema) none := by
  refine ⟨?_, ?_, rfl⟩
  · intro tr htr
    simp only [List.mem_cons, List.not_mem_nil, or_false] at htr
    rcases htr with rfl | rfl | rfl | rfl | rfl | rfl | rfl | rfl | rfl
    · exact pgSession_lifecycle _ _ (by simp [list_tables_stmts])
    · exact pgSession_lifecycle _ _ (by simp [describe_table_stmts])
    · exact pgSession_lifecycle _ _ (by simp [run_select_query_stmts])
    · exact pgSession_lifecycle _ _ (by simp [search_movies_stmts])
    · exact pgSession_lifecycle _ _ (by simp [get_customer_history_stmts])
    · exact pgSession_lifecycle _ _
        (by unfold rent_movie_stmts; split <;> simp)
    · exact pgSession_lifecycle _ _
        (by unfold return_movie_stmts; split <;> (try split) <;> simp)
    · exact pgSession_lifecycle _ _ (by simp [get_available_inventory_stmts])
    · exact pgSession_lifecycle _ _
        (by unfold analyze_revenue_stmts; split <;> simp)
  · intro hq
    simp [run_select_query, hq, run_select_query_stmts, pgSession]

/-- Witness for the amended C8 at concrete inputs: a clean `rent_movie`
session commits and never closes the connection, a `list_tables` session
whose statement raises rolls back after opening the connection first, and
the accepted query `"select 1"` yields exactly the session trace. -/
theorem catalog_connection_lifecycle_witness :
    (DbEvent.commit ∈ pgSession (rent_movie_stmts dbOpen5 1 5 1) none ∧
     DbEvent.connClose ∉ pgSession (rent_movie_stmts dbOpen5 1 5 1) none) ∧
    ((pgSession (list_tables_stmts "public") (some 0)).head? =
        some DbEvent.connOpen ∧
     DbEvent.rollback ∈ pgSession (list_tables_stmts "public") (some 0)) ∧
    (run_select_query "select 1" 50).1 =
      pgSession (run_select_query_stmts "select 1" 50) none := by
  have h1 := catalog_connection_lifecycle "public" "film" "select 1" none none
    none 50 1 5 1 1 1 true dbOpen5 none
  have h2 := catalog_connection_lifecycle "public" "film" "select 1" none none
    none 50 1 5 1 1 1 true dbOpen5 (some 0)
  refine ⟨⟨?_, ?_⟩, ⟨?_, ?_⟩, ?_⟩
  · exact (h1.1 (pgSession (rent_movie_stmts dbOpen5 1 5 1) none)
      (by simp)).2.2.1 rfl
  · exact (h1.1 (pgSession (rent_movie_stmts dbOpen5 1 5 1) none)
      (by simp)).2.2.2.2
  · exact (h2.1 (pgSession (list_tables_stmts "public") (some 0))
      (by simp)).1
  · exact (h2.1 (pgSession (list_tables_stmts "public") (some 0))
      (by simp)).2.2.2.1 0 rfl
  · exact h1.2.1 (by decide)

/-- Case-insensitive character comparison used by `ILIKE` (ASCII model,
matching `Char.toLower`). -/
def charMatchCI (p c : Char) : Bool := p.toLower == c.toLower

/-- A token of a LIKE pattern: `%` (any sequence), `_` (any single
character), or a literal character (either plain or backslash-escaped). -/
inductive LikeTok where
  | anySeq : LikeTok
  | anyOne : LikeTok
  | lit : Char → LikeTok
  deriving DecidableEq, Repr

/-- Tokenize a LIKE pattern: `%` and `_` are wildcards, a backslash escapes
the following character (PostgreSQL's default escape character), all other
characters are literals.  A lone trailing backslash is kept as a literal
(PostgreSQL raises an error there; the patterns built by `search_movies`
always end in `%`, so the case is unreachable for them). -/
def parseLike : List Char → List LikeTok
  | [] => []
  | c :: ps =>
    if c = '%' then LikeTok.anySeq :: parseLike ps
    else if c = '_' then LikeTok.anyOne :: parseLike ps
    else if c = '\\' then
      match ps with
      | [] => [LikeTok.lit c]
      | c2 :: ps2 => LikeTok.lit c2 :: parseLike ps2
    else LikeTok.lit c :: parseLike ps

/-- Match a tokenized LIKE pattern against a subject, comparing literal
characters case-insensitively (this is `ILIKE`).  The `%` token is matched
through `tails`: some suffix of the subject must match the remaining
pattern. -/
def likeToksMatch : List LikeTok → List Char → Bool
  | [], s => s.isEmpty
  | LikeTok.anySeq :: ps, s => s.tails.any (fun t => likeToksMatch ps t)
  | LikeTok.anyOne :: ps, s =>
    match s with
    | [] => false
    | _ :: s2 => likeToksMatch ps s2
  | LikeTok.lit c :: ps, s =>
    match s with
    | [] => false
    | d :: s2 => charMatchCI c d && likeToksMatch ps s2

/-- PostgreSQL `ILIKE` on character lists: tokenize the pattern, then
match. -/
def ilikeMatch (pat s : List Char) : Bool := likeToksMatch (parseLike pat) s

/-- `subject ILIKE pattern` at the `String` level. -/
def ilikePat (s pat : String) : Bool := ilikeMatch pat.data s.data

/-- `ILIKE` on the nullable `description` column: a NULL operand yields SQL
unknown, which as a `WHERE`-clause disjunct behaves as a non-match. -/
def descMatch (d : Option String) (pat : String) : Bool :=
  match d with
  | none => false
  | some s => ilikePat s pat

/-- A result row of `search_movies` (the SELECT list of src/main.py lines
89-102): film columns plus the joined category name as `genre`. -/
structure MovieRow where
  film_id : Nat
  title : String
  genre : String
  release_year : Int
  rental_rate : Int
  rating : String
  description : Option String
  deriving DecidableEq, Repr

/-- The FROM/JOIN clause of `search_movies`:
`film f JOIN film_category fc ON f.film_id = fc.film_id JOIN category c ON
fc.category_id = c.category_id` — one row per matching (film, category)
pair; films without a category produce no row. -/
def filmJoinRows (db : DB) : List MovieRow :=
  db.film.flatMap (fun f =>
    (db.film_category.filter (fun fc => fc.film_id == f.film_id)).flatMap
      (fun fc =>
        (db.category.filter (fun c => c.category_id == fc.category_id)).map
          (fun c =>
            { film_id := f.film_id, title := f.title, genre := c.name,
              release_year := f.release_year, rental_rate := f.rental_rate,
              rating := f.rating, description := f.description })))

/-- The dynamically built WHERE clause of `search_movies` (src/main.py lines
101-115).  Python truthiness decides whether a clause is added: a `None` or
empty-string `search_term`/`genre` and a `None` or zero `year` contribute no
condition.  The bound patterns are `f"%{search_term}%"` and `f"%{genre}%"`,
compared with `ILIKE`; the year comparison is exact equality. -/
def searchFilter (search_term genre : Option String) (year : Option Int)
    (m : MovieRow) : Bool :=
  (match search_term with
   | none => true
   | some s =>
     if s.isEmpty then true
     else ilikePat m.title ("%" ++ s ++ "%") ||
       descMatch m.description ("%" ++ s ++ "%")) &&
  (match genre with
   | none => true
   | some g =>
     if g.isEmpty then true
     else ilikePat m.genre ("%" ++ g ++ "%")) &&
  (match year with
   | none => true
   | some y => if y == 0 then true else m.release_year == y)

/-- The `ORDER BY f.title` ordering: textual comparison of titles, modelled
as the lexicographic order on the character lists. -/
def titleLe (a b : MovieRow) : Prop := ¬ (b.title.data < a.title.data)

instance : DecidableRel titleLe := fun a b =>
  inferInstanceAs (Decidable ¬ (b.title.data < a.title.data))

instance : IsTotal MovieRow titleLe := ⟨fun a b => by
  unfold titleLe
  rcases lt_trichotomy a.title.data b.title.data with h | h | h
  · exact Or.inl (asymm h)
  · exact Or.inl (by simp [h])
  · exact Or.inr (asymm h)⟩

instance : IsTrans MovieRow titleLe := ⟨fun a b c hab hbc => by
  unfold titleLe at *
  intro hca
  rcases lt_trichotomy a.title.data b.title.data with h | h | h
  · exact hbc (lt_trans hca h)
  · exact hbc (h ▸ hca)
  · exact hab h⟩

/-- `search_movies(search_term, genre, year, limit)` (src/main.py lines
80-123): the join rows surviving the dynamic WHERE clause, ordered by title
(`ORDER BY f.title`, here a concrete stable sort realising that ordering)
and truncated by `LIMIT %s`. -/
def search_movies (db : DB) (search_term genre : Option String)
    (year : Option Int) (limit : Nat) : List MovieRow :=
  (List.insertionSort titleLe
    ((filmJoinRows db).filter (searchFilter search_term genre year))).take limit

/-- `t` occurs in `s` as a case-insensitive substring (ASCII folding). -/
def containsCI (s t : String) : Prop :=
  (t.data.map Char.toLower) <:+: (s.data.map Char.toLower)

/-- `containsCI` on the nullable description column: NULL contains
nothing. -/
def descContainsCI : Option String → String → Prop
  | none, _ => False
  | some s, t => containsCI s t

/-- `t` contains none of the characters that play a wildcard or escape role
in a LIKE pattern. -/
def noWildcards (t : String) : Prop :=
  ∀ c ∈ t.data, c ≠ '%' ∧ c ≠ '_' ∧ c ≠ '\\'

instance (s t : String) : Decidable (containsCI s t) :=
  inferInstanceAs
    (Decidable ((t.data.map Char.toLower) <:+: (s.data.map Char.toLower)))

instance (t : String) : Decidable (noWildcards t) :=
  inferInstanceAs (Decidable (∀ c ∈ t.data, c ≠ '%' ∧ c ≠ '_' ∧ c ≠ '\\'))

theorem parseLike_nil : parseLike [] = [] := by
  rw [parseLike.eq_def]

theorem parseLike_percent (ps : List Char) :
    parseLike ('%' :: ps) = LikeTok.anySeq :: parseLike ps := by
  rw [parseLike.eq_def]
  simp

theorem parseLike_lit (c : Char) (ps : List Char)
    (h1 : c ≠ '%') (h2 : c ≠ '_') (h3 : c ≠ '\\') :
    parseLike (c :: ps) = LikeTok.lit c :: parseLike ps := by
  rw [parseLike.eq_def]
  simp only []
  rw [if_neg h1, if_neg h2, if_neg h3]

theorem parseLike_lit_block (lit : List Char)
    (hw : ∀ c ∈ lit, c ≠ '%' ∧ c ≠ '_' ∧ c ≠ '\\') :
    parseLike (lit ++ ['%']) = lit.map LikeTok.lit ++ [LikeTok.anySeq] := by
  induction lit with
  | nil =>
    rw [List.nil_append, parseLike_percent, parseLike_nil]
    rfl
  | cons c lit ih =>
    obtain ⟨h1, h2, h3⟩ := hw c (List.mem_cons_self c lit)
    rw [List.cons_append, parseLike_lit c _ h1 h2 h3,
      ih (fun x hx => hw x (List.mem_cons_of_mem c hx))]
    rfl

theorem likeToksMatch_anySeq (ps : List LikeTok) (s : List Char) :
    likeToksMatch (LikeTok.anySeq :: ps) s =
      s.tails.any (fun t => likeToksMatch ps t) := rfl

theorem likeToksMatch_lit_block (lit : List Char) :
    ∀ s : List Char,
      likeToksMatch (lit.map LikeTok.lit ++ [LikeTok.anySeq]) s = true →
      ∃ pre rest, s = pre ++ rest ∧
        pre.map Char.toLower = lit.map Char.toLower := by
  induction lit with
  | nil => exact fun s _ => ⟨[], s, rfl, rfl⟩
  | cons c lit ih =>
    intro s h
    rw [List.map_cons, List.cons_append] at h
    cases s with
    | nil =>
      rw [show likeToksMatch
          (LikeTok.lit c :: (lit.map LikeTok.lit ++ [LikeTok.anySeq])) [] =
          false from rfl] at h
      exact absurd h (by simp)
    | cons d s2 =>
      rw [show likeToksMatch
          (LikeTok.lit c :: (lit.map LikeTok.lit ++ [LikeTok.anySeq]))
          (d :: s2) =
          (charMatchCI c d &&
            likeToksMatch (lit.map LikeTok.lit ++ [LikeTok.anySeq]) s2)
          from rfl, Bool.and_eq_true] at h
      obtain ⟨pre, rest, hsplit, hlow⟩ := ih s2 h.2
      have hcd : c.toLower = d.toLower := by
        have h5 := h.1
        simpa [charMatchCI] using h5
      refine ⟨d :: pre, rest, by simp [hsplit], ?_⟩
      simp only [List.map_cons, hlow, hcd]

theorem ilike_contains (t s : String) (hw : noWildcards t)
    (h : ilikePat s ("%" ++ t ++ "%") = true) : containsCI s t := by
  unfold ilikePat ilikeMatch at h
  have hdata : ("%" ++ t ++ "%").data = '%' :: (t.data ++ ['%']) := by
    rw [String.data_append, String.data_append]
    rfl
  rw [hdata, parseLike_percent, parseLike_lit_block t.data hw,
    likeToksMatch_anySeq] at h
  obtain ⟨tl, htl, hmatch⟩ := List.any_eq_true.mp h
  rw [List.mem_tails] at htl
  obtain ⟨a, ha⟩ := htl
  obtain ⟨pre, rest, hsplit, hlow⟩ := likeToksMatch_lit_block t.data tl hmatch
  refine ⟨a.map Char.toLower, rest.map Char.toLower, ?_⟩
  rw [← ha, hsplit]
  simp [List.map_append, hlow, List.append_assoc]

/-- C9: `search_movies` treats falsy filter values as absent filters —
Python truthiness makes `search_term=""`, `genre=""` and `year=0` drop the
corresponding clause exactly as `None` does. -/
theorem search_movies_falsy_filters (db : DB) (st ge : Option String)
    (yr : Option Int) (lim : Nat) :
    search_movies db (some "") ge yr lim = search_movies db none ge yr lim ∧
    search_movies db st (some "") yr lim = search_movies db st none yr lim ∧
    search_movies db st ge (some 0) lim = search_movies db st ge none lim :=
  ⟨rfl, rfl, rfl⟩

/-- A film with no `film_category` row. -/
def filmNoCat : FilmRow :=
  { film_id := 1, title := "ACADEMY", description := none,
    release_year := 2006, rental_rate := 1, rating := "PG" }

/-- A database containing one film but no category assignments. -/
def dbFilmNoCat : DB := { dbEmpty with film := [filmNoCat] }

/-- C7 counterexample: `search_movies` with no filters at a database holding
one film with no category returns nothing — the INNER JOIN with
`film_category` drops films that have no category, so "returns every film"
fails. -/
theorem search_movies_missing_film_counterexample :
    dbFilmNoCat.film = [filmNoCat] ∧
    search_movies dbFilmNoCat none none none 20 = [] :=
  ⟨rfl, by decide⟩

/-- C7 (amended): `search_movies` with no filters returns the rows of the
film–category join (one row per (film, category) pair; films with no
category are omitted), sorted by title ascending and truncated to the
limit; when the join fits within the limit, the result is a permutation of
the whole join. -/
theorem search_movies_no_filter_spec (db : DB) (lim : Nat) :
    List.Sorted titleLe (search_movies db none none none lim) ∧
    (search_movies db none none none lim).length =
      min lim (filmJoinRows db).length ∧
    (∀ m : MovieRow, m ∈ search_movies db none none none lim →
      m ∈ filmJoinRows db) ∧
    ((filmJoinRows db).length ≤ lim →
      (search_movies db none none none lim).Perm (filmJoinRows db)) := by
  have hfil : (filmJoinRows db).filter (searchFilter none none none) =
      filmJoinRows db :=
    List.filter_eq_self.mpr (fun a _ => rfl)
  have hsm : search_movies db none none none lim =
      (List.insertionSort titleLe (filmJoinRows db)).take lim := by
    unfold search_movies
    rw [hfil]
  have hperm := List.perm_insertionSort titleLe (filmJoinRows db)
  refine ⟨?_, ?_, ?_, ?_⟩
  · rw [hsm]
    exact List.Pairwise.sublist (List.take_sublist _ _)
      (List.sorted_insertionSort titleLe _)
  · rw [hsm, List.length_take, hperm.length_eq]
  · intro m hmem
    rw [hsm] at hmem
    exact hperm.mem_iff.mp (List.mem_of_mem_take hmem)
  · intro hle
    rw [hsm, List.take_of_length_le]
    · exact hperm
    · rw [hperm.length_eq]
      exact hle

/-- A concrete film with a description. -/
def filmAcademy : FilmRow :=
  { film_id := 1, title := "Academy Dinosaur",
    description := some "A Epic Drama", release_year := 2006,
    rental_rate := 1, rating := "PG" }

/-- A concrete film with no description. -/
def filmZebra : FilmRow :=
  { film_id := 2, title := "Zebra", description := none,
    release_year := 1999, rental_rate := 3, rating := "G" }

/-- A database with two categorized films. -/
def dbMovies : DB :=
  { dbEmpty with
    film := [filmAcademy, filmZebra],
    category := [{ category_id := 1, name := "Documentary" },
                 { category_id := 2, name := "Action" }],
    film_category := [{ film_id := 1, category_id := 1 },
                      { film_id := 2, category_id := 2 }] }

/-- The join row of `filmAcademy` with its category. -/
def rowAcademy : MovieRow :=
  { film_id := 1, title := "Academy Dinosaur", genre := "Documentary",
    release_year := 2006, rental_rate := 1, rating := "PG",
    description := some "A Epic Drama" }

/-- Witness for the amended C7 at `dbMovies`: with no filters the result is
a permutation of the full film–category join, of the expected length. -/
theorem search_movies_no_filter_spec_witness :
    (search_movies dbMovies none none none 20).Perm (filmJoinRows dbMovies) ∧
    (search_movies dbMovies none none none 20).length =
      min 20 (filmJoinRows dbMovies).length :=
  ⟨(search_movies_no_filter_spec dbMovies 20).2.2.2 (by decide),
   (search_movies_no_filter_spec dbMovies 20).2.1⟩

/-- C6 (amended): every row returned by `search_movies` satisfies all
supplied (truthy) filters conjunctively — provided `search_term` and
`genre` contain no LIKE wildcard or escape characters (`%`, `_`, `\`), the
ILIKE match means case-insensitive substring containment of the search term
in title or description and of the genre in the category name, and the
release year equals the requested year exactly.  (For wildcard-containing
terms the ILIKE pattern semantics apply instead — see the
counterexample.) -/
theorem search_movies_filters_sound (db : DB) (st ge : Option String)
    (yr : Option Int) (lim : Nat) (m : MovieRow)
    (hm : m ∈ search_movies db st ge yr lim)
    (hstw : ∀ s, st = some s → noWildcards s)
    (hgew : ∀ g, ge = some g → noWildcards g) :
    (∀ s, st = some s → s.isEmpty = false →
      containsCI m.title s ∨ descContainsCI m.description s) ∧
    (∀ g, ge = some g → g.isEmpty = false → containsCI m.genre g) ∧
    (∀ y, yr = some y → y ≠ 0 → m.release_year = y) := by
  unfold search_movies at hm
  have hm2 : m ∈ (filmJoinRows db).filter (searchFilter st ge yr) :=
    ((List.perm_insertionSort titleLe _).mem_iff).mp
      (List.mem_of_mem_take hm)
  have hf := (List.mem_filter.mp hm2).2
  unfold searchFilter at hf
  rw [Bool.and_eq_true, Bool.and_eq_true] at hf
  refine ⟨?_, ?_, ?_⟩
  · intro s hs hsne
    subst hs
    have h1 : (if s.isEmpty then true
        else ilikePat m.title ("%" ++ s ++ "%") ||
          descMatch m.description ("%" ++ s ++ "%")) = true := hf.1.1
    rw [if_neg (by simp [hsne])] at h1
    rw [Bool.or_eq_true] at h1
    rcases h1 with hl | hr
    · exact Or.inl (ilike_contains s m.title (hstw s rfl) hl)
    · cases hd : m.description with
      | none =>
        rw [hd] at hr
        exact absurd hr (by simp [descMatch])
      | some dsc =>
        rw [hd] at hr
        have hdm : ilikePat dsc ("%" ++ s ++ "%") = true := hr
        exact Or.inr (ilike_contains s dsc (hstw s rfl) hdm)
  · intro g hg hgne
    subst hg
    have h2 : (if g.isEmpty then true
        else ilikePat m.genre ("%" ++ g ++ "%")) = true := hf.1.2
    rw [if_neg (by simp [hgne])] at h2
    exact ilike_contains g m.genre (hgew g rfl) h2
  · intro y hy hyne
    subst hy
    have h3 : (if y == 0 then true else m.release_year == y) = true := hf.2
    rw [if_neg (by simp [hyne])] at h3
    simpa using h3

/-- Witness for the amended C6: the film "Academy Dinosaur" is returned for
`search_term="cad"`, `year=2006`, and indeed contains "cad"
case-insensitively and has release year 2006. -/
theorem search_movies_filters_sound_witness :
    (containsCI rowAcademy.title "cad" ∨
      descContainsCI rowAcademy.description "cad") ∧
    rowAcademy.release_year = 2006 := by
  have h := search_movies_filters_sound dbMovies (some "cad") none
    (some 2006) 20 rowAcademy (by decide)
    (fun s hs => by cases hs; decide)
    (fun g hg => by cases hg)
  exact ⟨h.1 "cad" rfl (by decide), h.2.2 2006 rfl (by decide)⟩

/-- The join row of the wildcard counterexample database. -/
def rowAXB : MovieRow :=
  { film_id := 1, title := "aXb", genre := "Action", release_year := 2006,
    rental_rate := 1, rating := "PG", description := some "zzz" }

/-- A database whose only film has title "aXb" and description "zzz". -/
def dbWildcard : DB :=
  { dbEmpty with
    film := [{ film_id := 1, title := "aXb", description := some "zzz",
               release_year := 2006, rental_rate := 1, rating := "PG" }],
    category := [{ category_id := 1, name := "Action" }],
    film_category := [{ film_id := 1, category_id := 1 }] }

/-- C6 counterexample: with `search_term = "a%b"` the `%` acts as an ILIKE
wildcard, so the film titled "aXb" is returned even though neither its
title nor its description contains "a%b" as a (case-insensitive)
substring — the claim's "contains search_term as substring" reading fails
for wildcard-containing terms. -/
theorem search_movies_wildcard_counterexample :
    search_movies dbWildcard (some "a%b") none none 20 = [rowAXB] ∧
    rowAXB.title = "aXb" ∧
    rowAXB.description = some "zzz" ∧
    ¬ containsCI "aXb" "a%b" ∧
    ¬ containsCI "zzz" "a%b" :=
  ⟨by decide, rfl, rfl, by decide, by decide⟩

end PgMcp
